import Mathlib

/-!
Verification of `parsl/dataflow/futures.py` (`AppFuture`).

The module defines `AppFuture`, a subclass of `concurrent.futures.Future`
that delegates to an executor-owned "parent" future, supports replacing
that parent on retry, and tracks a resolution-path commitment (`_commit`:
`0` unset, `1` direct, `2` delegated).

The embedding below is a shallow, sequential model of the module's state
and methods.  Each method is a function from the handle state (plus
arguments) to the updated state together with either a raised exception
(`Option PyErr`) or, for the accessors, a `RunResult` that can also record
that the call blocks forever in the sequential model (waiting on an event
nobody will set, or an unbounded wait on an unfinished future).

The name `ValueException` is used by several `raise` statements in the
module but is never defined or imported there; in Python, executing such a
`raise` therefore raises a `NameError`.  The embedding models every such
site as raising `PyErr.nameError "ValueException"`.
-/

/-- Exception values that task attempts can fail with.

The constructor `remote` is the remote-failure wrapper.
Modelled from the spec: the class `RemoteException` is imported from
`parsl.app.errors`, which is not part of the sources under verification;
the spec describes it as "a remote-failure wrapper type exposing a
're-raise as native error' operation", whose wrapped failure is
"unwrapped and re-raised to the caller as the underlying cause", so
`reraise` on `remote cause` raises `cause`. -/
inductive ExcVal where
  | remote (cause : ExcVal)
  | named (name : String) (msg : String)
  deriving Repr, DecidableEq

/-- Python values relevant to the module: task results, booleans, `None`,
exception objects used as plain values (a returned `RemoteException`),
and a bound-method object (`self.parent.cancel` is returned uninvoked). -/
inductive PyVal where
  | vint (n : Int)
  | vstr (s : String)
  | vbool (b : Bool)
  | vnone
  | vexc (e : ExcVal)
  | vmethod (name : String)
  deriving Repr, DecidableEq

/-- Exceptions a method call can raise.  `nameError` models executing
`raise ValueException(...)` when `ValueException` is an undefined name;
`invalidStateError` models `concurrent.futures` double-resolution;
`timeoutError` a bounded wait that expires; `exc` an exception value
raised (from a failed future or a `reraise`). -/
inductive PyErr where
  | nameError (missing : String)
  | invalidStateError
  | timeoutError
  | exc (e : ExcVal)
  deriving Repr, DecidableEq

/-- Outcome of a finished `concurrent.futures.Future`: either a stored
result value or a stored exception. -/
inductive FutOutcome where
  | success (v : PyVal)
  | failure (e : ExcVal)
  deriving Repr, DecidableEq

/-- The executor-owned parent (attempt) future, as the module uses it:
its finished/unfinished outcome and the engine-supplied `retries_left`. -/
structure ParentFuture where
  outcome : Option FutOutcome
  retries_left : Nat
  deriving Repr, DecidableEq

/-- State of an `AppFuture` handle (fields set in `__init__`):
`parent`/`prev_parent` the delegate references, `superOutcome` the state
of the underlying `concurrent.futures.Future` base (`none` = pending),
`parentUpdateEvent` the `threading.Event` flag, `_commit` the
resolution-path slot, `commitFailures` the number of `COMMIT FAILURE`
log records, `attachedCallbacks` the number of `parent_callback`
registrations queued on a pending parent, `userCallbacks` the number of
user callbacks forwarded via `add_done_callback`. -/
structure AppFuture where
  tid : Option Nat
  parent : Option ParentFuture
  prev_parent : Option ParentFuture
  superOutcome : Option FutOutcome
  parentUpdateEvent : Bool
  _commit : Nat
  commitFailures : Nat
  attachedCallbacks : Nat
  userCallbacks : List Nat
  stdout : Option String
  stderr : Option String
  outputs : List Nat
  deriving Repr, DecidableEq

/-- `AppFuture.__init__(parent, tid, stdout, stderr)`. -/
def mkAppFuture (parent : Option ParentFuture) (tid : Option Nat)
    (stdout stderr : Option String) : AppFuture :=
  { tid, parent, prev_parent := none, superOutcome := none,
    parentUpdateEvent := false, _commit := 0, commitFailures := 0,
    attachedCallbacks := 0, userCallbacks := [], stdout, stderr,
    outputs := [] }

/-- `AppFuture.commit(n)`: under `_commit_lock`, set `_commit` when it is
`0`; leave it alone when already `n`; otherwise log `COMMIT FAILURE`
(modelled by incrementing `commitFailures`) and leave `_commit` alone. -/
def commitOp (s : AppFuture) (n : Nat) : AppFuture :=
  if s._commit = 0 then { s with _commit := n }
  else if s._commit = n then s
  else { s with commitFailures := s.commitFailures + 1 }

/-- `AppFuture.set_result(result)`: `commit(1)`, then raise when a parent
is present (the undefined `ValueException`), else `super().set_result`. -/
def set_result (s : AppFuture) (r : PyVal) : AppFuture × Option PyErr :=
  let s := commitOp s 1
  if s.parent.isSome then (s, some (PyErr.nameError "ValueException"))
  else if s.superOutcome.isSome then (s, some PyErr.invalidStateError)
  else ({ s with superOutcome := some (FutOutcome.success r) }, none)

/-- `AppFuture.set_exception(e)`: `commit(1)`, then raise when a parent
is present, else `super().set_exception`. -/
def set_exception (s : AppFuture) (e : ExcVal) : AppFuture × Option PyErr :=
  let s := commitOp s 1
  if s.parent.isSome then (s, some (PyErr.nameError "ValueException"))
  else if s.superOutcome.isSome then (s, some PyErr.invalidStateError)
  else ({ s with superOutcome := some (FutOutcome.failure e) }, none)

/-- `AppFuture.parent_callback(executor_fu)`: `commit(2)`; raise when
`executor_fu != self.parent`; raise when `self.parent is not None`; only
then (unreachably, since one of the two raises always fires) mirror the
finished executor future's outcome into `super()`. -/
def parent_callback (s : AppFuture) (fu : ParentFuture) :
    AppFuture × Option PyErr :=
  let s := commitOp s 2
  if s.parent ≠ some fu then (s, some (PyErr.nameError "ValueException"))
  else if s.parent.isSome then (s, some (PyErr.nameError "ValueException"))
  else
    match fu.outcome with
    | none => (s, none)
    | some out =>
        if s.superOutcome.isSome then (s, some PyErr.invalidStateError)
        else ({ s with superOutcome := some out }, none)

/-- `AppFuture.update_parent(fut)`: raise when a parent is already set
("Can't set parent multiple times", via the undefined `ValueException`);
else `commit(2)`, store `fut` as the parent, register `parent_callback`
on it (`Future.add_done_callback` invokes the callback immediately when
`fut` is already finished, and that callback's exception propagates,
skipping the event), and finally set `_parent_update_event`. -/
def update_parent (s : AppFuture) (fut : ParentFuture) :
    AppFuture × Option PyErr :=
  if s.parent.isSome then (s, some (PyErr.nameError "ValueException"))
  else
    let s := commitOp s 2
    let s := { s with parent := some fut }
    if fut.outcome.isSome then
      match parent_callback s fut with
      | (s, some e) => (s, some e)
      | (s, none) => ({ s with parentUpdateEvent := true }, none)
    else
      ({ s with attachedCallbacks := s.attachedCallbacks + 1,
                parentUpdateEvent := true }, none)

/-- Result of calling an accessor: a returned value, a raised exception,
or a call that blocks forever in the sequential model (an unbounded wait
on an unfinished future, or a wait on an event nobody will set). -/
inductive RunResult where
  | ok (v : PyVal)
  | raises (e : PyErr)
  | blocked
  deriving Repr, DecidableEq

/-- The `try:` body of `AppFuture.result(timeout)`: when a parent is
present, `commit(2)`, raise when `super().done()` (the undefined
`ValueException`), else wait on `self.parent.result(timeout)`; when no
parent, `commit(1)` and wait on `super().result(timeout)`.  In either
case, when the obtained value is a `RemoteException`, `res.reraise()`
raises its wrapped cause (still inside the `try:`). -/
def resultTryBody (s : AppFuture) (timeout : Option Nat) :
    AppFuture × RunResult :=
  let (s, r) :=
    match s.parent with
    | some p =>
      let s := commitOp s 2
      if s.superOutcome.isSome then
        (s, RunResult.raises (PyErr.nameError "ValueException"))
      else
        match p.outcome with
        | some (FutOutcome.success v) => (s, RunResult.ok v)
        | some (FutOutcome.failure e) => (s, RunResult.raises (PyErr.exc e))
        | none =>
            (s, if timeout.isSome then RunResult.raises PyErr.timeoutError
                else RunResult.blocked)
    | none =>
      let s := commitOp s 1
      match s.superOutcome with
      | some (FutOutcome.success v) => (s, RunResult.ok v)
      | some (FutOutcome.failure e) => (s, RunResult.raises (PyErr.exc e))
      | none =>
          (s, if timeout.isSome then RunResult.raises PyErr.timeoutError
              else RunResult.blocked)
  match r with
  | RunResult.ok (PyVal.vexc (ExcVal.remote c)) =>
      (s, RunResult.raises (PyErr.exc c))
  | other => (s, other)

/-- `AppFuture.result(timeout)`: run the `try:` body; on an exception,
when a parent is present with `retries_left > 0`, `commit(2)`, wait on
`_parent_update_event`, `clear()` it and recurse (in the sequential
model, waiting on a clear event blocks forever); otherwise `reraise()`
a caught `RemoteException` or re-raise the exception as-is. -/
def result (s : AppFuture) (timeout : Option Nat) :
    AppFuture × RunResult :=
  match (resultTryBody s timeout).2 with
  | RunResult.ok v => ((resultTryBody s timeout).1, RunResult.ok v)
  | RunResult.blocked => ((resultTryBody s timeout).1, RunResult.blocked)
  | RunResult.raises e =>
    match (resultTryBody s timeout).1.parent with
    | some p =>
      if p.retries_left > 0 then
        let s2 := commitOp (resultTryBody s timeout).1 2
        if hev : s2.parentUpdateEvent then
          result { s2 with parentUpdateEvent := false } timeout
        else (s2, RunResult.blocked)
      else
        match e with
        | PyErr.exc (ExcVal.remote c) =>
            ((resultTryBody s timeout).1, RunResult.raises (PyErr.exc c))
        | _ => ((resultTryBody s timeout).1, RunResult.raises e)
    | none =>
      match e with
      | PyErr.exc (ExcVal.remote c) =>
          ((resultTryBody s timeout).1, RunResult.raises (PyErr.exc c))
      | _ => ((resultTryBody s timeout).1, RunResult.raises e)
termination_by (if s.parentUpdateEvent then 1 else 0)
decreasing_by
  have hc : ∀ (u : AppFuture) (n : Nat),
      (commitOp u n).parentUpdateEvent = u.parentUpdateEvent := by
    intro u n; unfold commitOp; split <;> [rfl; skip]; split <;> rfl
  have hb : ∀ (u : AppFuture) (t : Option Nat),
      (resultTryBody u t).1.parentUpdateEvent = u.parentUpdateEvent := by
    intro u t
    unfold resultTryBody
    rcases hpu : u.parent with _ | p <;> simp only [hpu]
    · rcases hsup : (commitOp u 1).superOutcome with _ | out
      · split <;> simp [hsup, hc]
      · rcases out with v | e <;> split <;> simp_all [hc]
    · rcases hsup : (commitOp u 2).superOutcome with _ | out
      · rcases hout : p.outcome with _ | out
        · split <;> simp [hsup, hout, hc]
        · rcases out with v | e <;> split <;> simp_all [hc]
      · simp [hsup, hc]
  have h2 : s.parentUpdateEvent = true := by
    rw [← hb s timeout, ← hc (resultTryBody s timeout).1 2]
    exact hev
  simp [h2]

/-- `AppFuture.cancel()`: when a parent is present, `commit(2)` and
return `self.parent.cancel` — the bound-method object itself, without
invoking it; else return `False`. -/
def cancel (s : AppFuture) : AppFuture × PyVal :=
  match s.parent with
  | some _ => (commitOp s 2, PyVal.vmethod "cancel")
  | none => (s, PyVal.vbool false)

/-- `AppFuture.exception(timeout)`: when a parent is present, `commit(2)`
and forward to `self.parent.exception(timeout)` (which returns the stored
exception, or `None` on success, and waits when unfinished); else return
`False`. -/
def exception (s : AppFuture) (timeout : Option Nat) :
    AppFuture × RunResult :=
  match s.parent with
  | some p =>
    let s := commitOp s 2
    match p.outcome with
    | some (FutOutcome.success _) => (s, RunResult.ok PyVal.vnone)
    | some (FutOutcome.failure e) => (s, RunResult.ok (PyVal.vexc e))
    | none =>
        (s, if timeout.isSome then RunResult.raises PyErr.timeoutError
            else RunResult.blocked)
  | none => (s, RunResult.ok (PyVal.vbool false))

/-- `AppFuture.add_done_callback(fn)`: when a parent is present,
`commit(2)` and forward the callback to the parent; else raise
("Attempted to add_done_callback, but discarding instead", via the
undefined `ValueException`). -/
def add_done_callback (s : AppFuture) (fn : Nat) : AppFuture × Option PyErr :=
  match s.parent with
  | some _ =>
      let s := commitOp s 2
      ({ s with userCallbacks := fn :: s.userCallbacks }, none)
  | none => (s, some (PyErr.nameError "ValueException"))

/-- Fold of `AppFuture.commit` over a sequence of requested paths. -/
def applyCommits (s : AppFuture) (l : List Nat) : AppFuture :=
  l.foldl commitOp s

/-- One level of remote-failure unwrapping, as `result`'s exception
handler performs it via `RemoteException.reraise`. -/
def unwrapRemote : ExcVal → ExcVal
  | ExcVal.remote c => c
  | e => e

/-! Concrete fixtures used by the closed theorems below. -/

/-- A finished attempt that failed with a plain error and has no retries
left. -/
def failedAttempt : ParentFuture :=
  ⟨some (FutOutcome.failure (ExcVal.named "ZeroDivisionError" "boom")), 0⟩

/-- A finished attempt that failed with a plain error while the engine
still has one retry pending. -/
def retryableFailedAttempt : ParentFuture :=
  ⟨some (FutOutcome.failure (ExcVal.named "ZeroDivisionError" "boom")), 1⟩

/-- A finished attempt that failed with a remote-failure wrapper and has
no retries left. -/
def remoteFailedAttempt : ParentFuture :=
  ⟨some (FutOutcome.failure
      (ExcVal.remote (ExcVal.named "ZeroDivisionError" "boom"))), 0⟩

/-- An attempt that has not finished yet. -/
def pendingAttempt : ParentFuture := ⟨none, 0⟩

/-- An unfinished attempt with one retry pending. -/
def pendingRetryAttempt : ParentFuture := ⟨none, 1⟩

/-- A finished attempt that succeeded with the value `42`. -/
def succeededAttempt : ParentFuture :=
  ⟨some (FutOutcome.success (PyVal.vint 42)), 0⟩

/-- A handle constructed with no parent. -/
def unboundHandle : AppFuture := mkAppFuture none (some 1) none none

/-- A handle bound at construction to `failedAttempt`. -/
def boundFailedHandle : AppFuture :=
  mkAppFuture (some failedAttempt) (some 7) none none

/-- A handle bound at construction to `remoteFailedAttempt`. -/
def boundRemoteHandle : AppFuture :=
  mkAppFuture (some remoteFailedAttempt) (some 7) none none

/-- A handle bound at construction to `retryableFailedAttempt`. -/
def boundRetryHandle : AppFuture :=
  mkAppFuture (some retryableFailedAttempt) (some 7) none none

/-- A handle bound at construction to `succeededAttempt`. -/
def boundSucceededHandle : AppFuture :=
  mkAppFuture (some succeededAttempt) (some 7) none none

/-- A fresh handle on which `set_result(5)` has been called (Direct
path). -/
def directHandle : AppFuture :=
  (set_result (mkAppFuture none (some 3) none none) (PyVal.vint 5)).1

/-- `directHandle` after the engine then bound `pendingAttempt` to it via
`update_parent` (mixing the two resolution paths). -/
def mixedHandle : AppFuture := (update_parent directHandle pendingAttempt).1

/-! Helper lemmas about the operations. -/

theorem commitOp_parent (s : AppFuture) (n : Nat) :
    (commitOp s n).parent = s.parent := by
  unfold commitOp; split <;> [rfl; skip]; split <;> rfl

theorem commitOp_superOutcome (s : AppFuture) (n : Nat) :
    (commitOp s n).superOutcome = s.superOutcome := by
  unfold commitOp; split <;> [rfl; skip]; split <;> rfl

theorem commitOp_commit_of_ne_zero (s : AppFuture) (n : Nat)
    (h : s._commit ≠ 0) : (commitOp s n)._commit = s._commit := by
  unfold commitOp; split
  · exact absurd ‹s._commit = 0› h
  · split <;> rfl

theorem resultTryBody_parent (s : AppFuture) (t : Option Nat) :
    (resultTryBody s t).1.parent = s.parent := by
  unfold resultTryBody
  rcases hp : s.parent with _ | p <;> simp only [hp]
  · rcases hsup : (commitOp s 1).superOutcome with _ | out
    · split <;> simp [hsup, commitOp_parent, hp]
    · rcases out with v | e <;> split <;> simp_all [commitOp_parent]
  · rcases hsup : (commitOp s 2).superOutcome with _ | out
    · rcases hout : p.outcome with _ | out
      · split <;> simp [hsup, hout, commitOp_parent, hp]
      · rcases out with v | e <;> split <;> simp_all [commitOp_parent]
    · simp [hsup, commitOp_parent, hp]

/-! Claim theorems. -/

/-- Claim C1.  The claim states that a rebind — `update_parent` called on
a handle whose delegate is present — moves the current delegate into
`prev_parent`, installs the new delegate, attaches the callback,
advances the rebind signal and wakes waiters, without failing.  In the
code, `update_parent` instead raises as soon as `self.parent is not
None` ("Can't set parent multiple times", and since `ValueException` is
undefined, a `NameError`), leaving the handle completely unchanged: with
the delegate `retryableFailedAttempt` bound and a fresh attempt
supplied, nothing is rebound and the call fails. -/
theorem C1_update_parent_rejects_rebind :
    update_parent boundRetryHandle pendingAttempt =
      (boundRetryHandle, some (PyErr.nameError "ValueException")) := rfl

/-- Claim C2.  A handle bound to a delegate that failed with error `e`
while `retries_left = 0` (and whose own base-future state is still
pending, as it always is while a delegate is bound, since
`parent_callback` never writes it): `result` raises `e`, unwrapped one
level when `e` is the remote-failure wrapper. -/
theorem C2_result_raises_after_retries_exhausted (s : AppFuture)
    (p : ParentFuture) (e : ExcVal) (t : Option Nat)
    (hp : s.parent = some p) (hout : p.outcome = some (FutOutcome.failure e))
    (hr : p.retries_left = 0) (hsup : s.superOutcome = none) :
    (result s t).2 = RunResult.raises (PyErr.exc (unwrapRemote e)) := by
  have hb2 : (resultTryBody s t).2 = RunResult.raises (PyErr.exc e) := by
    unfold resultTryBody
    simp [hp, commitOp_superOutcome, hsup, hout]
  have hb1p : (resultTryBody s t).1.parent = some p := by
    rw [resultTryBody_parent, hp]
  rw [result, hb2, hb1p]
  rcases e with c | ⟨n, m⟩ <;> simp [hr, unwrapRemote]

/-- Witness for C2, at a plain failure and at a remote-wrapped failure. -/
theorem C2_witness :
    boundFailedHandle.parent = some failedAttempt ∧
    failedAttempt.outcome =
      some (FutOutcome.failure (ExcVal.named "ZeroDivisionError" "boom")) ∧
    failedAttempt.retries_left = 0 ∧
    boundFailedHandle.superOutcome = none ∧
    (result boundFailedHandle none).2 =
      RunResult.raises (PyErr.exc (ExcVal.named "ZeroDivisionError" "boom")) ∧
    (result boundRemoteHandle none).2 =
      RunResult.raises (PyErr.exc (ExcVal.named "ZeroDivisionError" "boom")) :=
  ⟨rfl, rfl, rfl, rfl,
   C2_result_raises_after_retries_exhausted boundFailedHandle failedAttempt
     (ExcVal.named "ZeroDivisionError" "boom") none rfl rfl rfl rfl,
   C2_result_raises_after_retries_exhausted boundRemoteHandle
     remoteFailedAttempt
     (ExcVal.remote (ExcVal.named "ZeroDivisionError" "boom")) none
     rfl rfl rfl rfl⟩

/-- Claim C3.  The claim states that when the runtime invokes
`parent_callback` with the currently bound delegate's finished future,
the callback mirrors the delegate's outcome into the handle's own
terminal state, and that a delegate-mismatch is reported without
crashing.  In the code, the check `if self.parent is not None: raise
ValueException(...)` fires precisely in the matched case, so the
callback raises (a `NameError`) before any mirroring: invoked with the
bound, successfully finished `succeededAttempt`, it raises and the
handle's own state stays pending. -/
theorem C3_parent_callback_raises_instead_of_mirroring :
    (parent_callback boundSucceededHandle succeededAttempt).2 =
      some (PyErr.nameError "ValueException") ∧
    (parent_callback boundSucceededHandle succeededAttempt).1.superOutcome =
      none :=
  ⟨rfl, rfl⟩

/-- Claim C4.  The claim states that `cancel()` returns the boolean
result of invoking the delegate's `cancel()`.  In the code, `return
self.parent.cancel` returns the bound-method object itself without
invoking it — not a boolean; only the no-delegate branch returns the
boolean `False` as claimed. -/
theorem C4_cancel_returns_method_not_bool :
    (cancel boundSucceededHandle).2 = PyVal.vmethod "cancel" ∧
    PyVal.vmethod "cancel" ≠ PyVal.vbool true ∧
    PyVal.vmethod "cancel" ≠ PyVal.vbool false ∧
    (cancel unboundHandle).2 = PyVal.vbool false :=
  ⟨rfl, by decide, by decide, rfl⟩

/-- Counterexample for C5: `set_result(5)` on a fresh handle followed by
binding a pending delegate logs a commit failure (the detectable part of
the claim holds), but a subsequent `result()` raises (`super().done()`
triggers the `raise ValueException(...)` site, a `NameError`) instead of
returning the previously set `5`. -/
theorem C5_counterexample :
    (update_parent directHandle pendingAttempt).2 = none ∧
    mixedHandle.commitFailures = 1 ∧
    (result mixedHandle none).2 =
      RunResult.raises (PyErr.nameError "ValueException") ∧
    (result mixedHandle none).2 ≠ RunResult.ok (PyVal.vint 5) := by
  have hres : (result mixedHandle none).2 =
      RunResult.raises (PyErr.nameError "ValueException") := by
    rw [result]
    simp [resultTryBody, commitOp, mixedHandle, directHandle, pendingAttempt,
      set_result, update_parent, parent_callback, mkAppFuture]
  exact ⟨rfl, rfl, hres, by rw [hres]; intro h; cases h⟩

/-- Claim C5 as amended.  For every fresh handle on which `set_result`
was called first, an ensuing bind of a still-pending delegate `d`
triggers a detectable consistency violation (a `COMMIT FAILURE` record)
— and, when `d` has no retries left, a subsequent `result()` raises an
error (a `NameError`, from the undefined `ValueException` raised because
`super().done()` already holds) rather than returning the previously
set value. -/
theorem C5_direct_result_then_bind (v : PyVal) (tid : Option Nat)
    (d : ParentFuture) (hd : d.outcome = none) (hr : d.retries_left = 0) :
    (update_parent (set_result (mkAppFuture none tid none none) v).1 d).2 =
      none ∧
    (update_parent (set_result (mkAppFuture none tid none none) v).1
        d).1.commitFailures = 1 ∧
    (result (update_parent (set_result (mkAppFuture none tid none none) v).1
        d).1 none).2 = RunResult.raises (PyErr.nameError "ValueException") := by
  refine ⟨?_, ?_, ?_⟩
  · simp [update_parent, set_result, commitOp, mkAppFuture, hd]
  · simp [update_parent, set_result, commitOp, mkAppFuture, hd]
  · rw [result]
    simp [resultTryBody, update_parent, set_result, commitOp, mkAppFuture,
      hd, hr]

/-- Witness for the amended C5. -/
theorem C5_witness :
    pendingAttempt.outcome = none ∧
    pendingAttempt.retries_left = 0 ∧
    (result (update_parent
        (set_result (mkAppFuture none (some 3) none none) (PyVal.vint 5)).1
        pendingAttempt).1 none).2 =
      RunResult.raises (PyErr.nameError "ValueException") :=
  ⟨rfl, rfl,
   (C5_direct_result_then_bind (PyVal.vint 5) (some 3) pendingAttempt
     rfl rfl).2.2⟩

/-- Claim C6.  Calling `add_done_callback` on a handle with no delegate
raises rather than silently dropping the callback: the handle is left
unchanged and the call fails.  (The spec labels this error
`NoDelegateError`; the code's `raise ValueException("Attempted to
add_done_callback, but discarding instead")` surfaces as a `NameError`
because `ValueException` is undefined — see C9.) -/
theorem C6_add_done_callback_unbound_raises (s : AppFuture) (fn : Nat)
    (hp : s.parent = none) :
    add_done_callback s fn = (s, some (PyErr.nameError "ValueException")) := by
  unfold add_done_callback
  rw [hp]

/-- Witness for C6, on the handle with `taskId = 1` and no delegate. -/
theorem C6_witness :
    unboundHandle.parent = none ∧
    add_done_callback unboundHandle 0 =
      (unboundHandle, some (PyErr.nameError "ValueException")) :=
  ⟨rfl, C6_add_done_callback_unbound_raises unboundHandle 0 rfl⟩

/-- Claim C7.  `commit(n)` sets `_commit` when it is `0`, is a no-op
when called with the already-committed path, and on a different path
records a commit failure while leaving `_commit` unchanged; hence over
any sequence of `commit` calls, once `_commit` is non-zero it never
changes. -/
theorem C7_commit_sets_path_at_most_once (s : AppFuture) (n : Nat) :
    (s._commit = 0 → commitOp s n = { s with _commit := n }) ∧
    (s._commit = n → commitOp s n = s) ∧
    (s._commit ≠ 0 → s._commit ≠ n →
      (commitOp s n)._commit = s._commit ∧
      (commitOp s n).commitFailures = s.commitFailures + 1) ∧
    (∀ l : List Nat, s._commit ≠ 0 →
      (applyCommits s l)._commit = s._commit) := by
  refine ⟨fun h0 => ?_, fun hn => ?_, fun h0 hn => ?_, fun l => ?_⟩
  · simp [commitOp, h0]
  · by_cases h0 : s._commit = 0
    · rw [hn] at h0
      subst h0
      unfold commitOp
      rw [if_pos hn, ← hn]
    · unfold commitOp
      rw [if_neg h0, if_pos hn]
  · simp [commitOp, h0, hn]
  · induction l generalizing s with
    | nil => intro h; rfl
    | cons m l ih =>
        intro h
        have hstep : (commitOp s m)._commit = s._commit :=
          commitOp_commit_of_ne_zero s m h
        have : (applyCommits (commitOp s m) l)._commit =
            (commitOp s m)._commit := ih (commitOp s m) (by rw [hstep]; exact h)
        calc (applyCommits s (m :: l))._commit
            = (applyCommits (commitOp s m) l)._commit := rfl
          _ = (commitOp s m)._commit := this
          _ = s._commit := hstep

/-- Witness for C7: a fresh commit, a re-commit, a conflicting commit
and a whole conflicting sequence, on concrete states. -/
theorem C7_witness :
    commitOp unboundHandle 1 = { unboundHandle with _commit := 1 } ∧
    commitOp (commitOp unboundHandle 1) 1 = commitOp unboundHandle 1 ∧
    (commitOp (commitOp unboundHandle 1) 2)._commit = 1 ∧
    (commitOp (commitOp unboundHandle 1) 2).commitFailures = 1 ∧
    (applyCommits (commitOp unboundHandle 1) [2, 1, 2])._commit = 1 :=
  ⟨(C7_commit_sets_path_at_most_once unboundHandle 1).1 rfl,
   (C7_commit_sets_path_at_most_once (commitOp unboundHandle 1) 1).2.1 rfl,
   ((C7_commit_sets_path_at_most_once (commitOp unboundHandle 1) 2).2.2.1
     (by decide) (by decide)).1,
   ((C7_commit_sets_path_at_most_once (commitOp unboundHandle 1) 2).2.2.1
     (by decide) (by decide)).2,
   (C7_commit_sets_path_at_most_once (commitOp unboundHandle 1) 2).2.2.2
     [2, 1, 2] (by decide)⟩

/-- Claim C8.  The claim states that during a forced
failure→rebind→success sequence, two concurrent `result()` callers both
observe the rebind and return the new value, with no missed wake-up of
the rebind signal.  In the code the sequence cannot even deliver the
signal: a `result()` caller that has observed the retryable failure
blocks on `_parent_update_event` (which is clear), and the engine's
rebind call `update_parent` raises on its very first line ("Can't set
parent multiple times", a `NameError`) — before the line that would set
the event — so the event stays clear and no waiter is ever woken. -/
theorem C8_rebind_never_sets_event_for_waiters :
    boundRetryHandle.parentUpdateEvent = false ∧
    (result boundRetryHandle none).2 = RunResult.blocked ∧
    (update_parent boundRetryHandle pendingRetryAttempt).2 =
      some (PyErr.nameError "ValueException") ∧
    (update_parent boundRetryHandle pendingRetryAttempt).1.parentUpdateEvent =
      false := by
  have hres : (result boundRetryHandle none).2 = RunResult.blocked := by
    rw [result]
    simp [resultTryBody, commitOp, boundRetryHandle, retryableFailedAttempt,
      mkAppFuture]
  exact ⟨rfl, hres, rfl, rfl⟩

/-- Claim C9.  `ValueException` is never defined or imported in the
module, so each `raise ValueException(...)` site — in `set_result`,
`set_exception`, `parent_callback` (which raises on both the mismatch
check and the matched-delegate check), `update_parent`, the
`super().done()` check inside `result`'s `try:` body, and
`add_done_callback` — raises a `NameError` at that point. -/
theorem C9_value_exception_sites_raise_name_error :
    (∀ (s : AppFuture) (v : PyVal), s.parent.isSome = true →
      (set_result s v).2 = some (PyErr.nameError "ValueException")) ∧
    (∀ (s : AppFuture) (e : ExcVal), s.parent.isSome = true →
      (set_exception s e).2 = some (PyErr.nameError "ValueException")) ∧
    (∀ (s : AppFuture) (fu : ParentFuture),
      (parent_callback s fu).2 = some (PyErr.nameError "ValueException")) ∧
    (∀ (s : AppFuture) (fut : ParentFuture), s.parent.isSome = true →
      (update_parent s fut).2 = some (PyErr.nameError "ValueException")) ∧
    (∀ (s : AppFuture) (t : Option Nat), s.parent.isSome = true →
      s.superOutcome.isSome = true →
      (resultTryBody s t).2 =
        RunResult.raises (PyErr.nameError "ValueException")) ∧
    (∀ (s : AppFuture) (fn : Nat), s.parent = none →
      (add_done_callback s fn).2 =
        some (PyErr.nameError "ValueException")) := by
  refine ⟨?_, ?_, ?_, ?_, ?_, ?_⟩
  · intro s v hp
    unfold set_result
    simp [commitOp_parent, hp]
  · intro s e hp
    unfold set_exception
    simp [commitOp_parent, hp]
  · intro s fu
    unfold parent_callback
    by_cases h : (commitOp s 2).parent = some fu
    · simp [h]
    · simp [h]
  · intro s fut hp
    unfold update_parent
    simp [hp]
  · intro s t hp hsup
    rcases Option.isSome_iff_exists.mp hp with ⟨p, hp'⟩
    unfold resultTryBody
    simp [hp', commitOp_superOutcome, hsup]
  · intro s fn hp
    unfold add_done_callback
    rw [hp]

/-- Witness for C9, exercising each of the six raise sites on a concrete
handle. -/
theorem C9_witness :
    (set_result boundSucceededHandle (PyVal.vint 0)).2 =
      some (PyErr.nameError "ValueException") ∧
    (set_exception boundSucceededHandle (ExcVal.named "E" "x")).2 =
      some (PyErr.nameError "ValueException") ∧
    (parent_callback boundFailedHandle failedAttempt).2 =
      some (PyErr.nameError "ValueException") ∧
    (update_parent boundSucceededHandle pendingRetryAttempt).2 =
      some (PyErr.nameError "ValueException") ∧
    (resultTryBody mixedHandle none).2 =
      RunResult.raises (PyErr.nameError "ValueException") ∧
    (add_done_callback unboundHandle 5).2 =
      some (PyErr.nameError "ValueException") :=
  ⟨C9_value_exception_sites_raise_name_error.1 boundSucceededHandle
     (PyVal.vint 0) rfl,
   C9_value_exception_sites_raise_name_error.2.1 boundSucceededHandle
     (ExcVal.named "E" "x") rfl,
   C9_value_exception_sites_raise_name_error.2.2.1 boundFailedHandle
     failedAttempt,
   C9_value_exception_sites_raise_name_error.2.2.2.1 boundSucceededHandle
     pendingRetryAttempt rfl,
   C9_value_exception_sites_raise_name_error.2.2.2.2.1 mixedHandle none
     rfl rfl,
   C9_value_exception_sites_raise_name_error.2.2.2.2.2 unboundHandle 5 rfl⟩

/-- Claim C10.  On a handle with no delegate, `exception(timeout)`
returns the boolean `False` for every timeout — not `None` (the standard
future convention for "no exception") and not a raised error. -/
theorem C10_exception_unbound_returns_false (s : AppFuture)
    (t : Option Nat) (hp : s.parent = none) :
    (exception s t).2 = RunResult.ok (PyVal.vbool false) ∧
    (exception s t).2 ≠ RunResult.ok PyVal.vnone ∧
    ∀ e : PyErr, (exception s t).2 ≠ RunResult.raises e := by
  have h : (exception s t).2 = RunResult.ok (PyVal.vbool false) := by
    unfold exception
    rw [hp]
  refine ⟨h, ?_, ?_⟩
  · rw [h]; intro hcon; cases hcon
  · intro e; rw [h]; intro hcon; cases hcon

/-- Witness for C10, on the unbound handle with and without a timeout. -/
theorem C10_witness :
    unboundHandle.parent = none ∧
    (exception unboundHandle (some 10)).2 =
      RunResult.ok (PyVal.vbool false) ∧
    (exception unboundHandle none).2 ≠ RunResult.ok PyVal.vnone :=
  ⟨rfl,
   (C10_exception_unbound_returns_false unboundHandle (some 10) rfl).1,
   (C10_exception_unbound_returns_false unboundHandle none rfl).2.1⟩
